import Mathlib

/-
  Verification development for the combat resolution core of the
  ai-rpg-world backend (server/app).  The Python sources are shallowly
  embedded: SQL tables become lists of records inside a `GameState`,
  async DB functions become pure state-passing functions, and the single
  random draw of an attack is injected as an explicit parameter.
  Machine integers are modelled by `Int` (Python ints are unbounded) and
  the handful of float constants (0.1, 2.0, 1.5, resistance and crit
  multipliers) by `Rat`; all concrete values exercised below are exactly
  representable in binary floating point, and for the armor formula the
  identity int(d * 0.1 * m) = (d * m) / 10 was checked exhaustively for
  1 <= d <= 2000000, 0 <= m <= 5.
-/

/-- Python round: round half to even (used by `int(round(x))`). -/
def pythonRound (q : ℚ) : Int :=
  let f := ⌊q⌋
  let r := q - (f : ℚ)
  if r < 1/2 then f
  else if r > 1/2 then f + 1
  else if f % 2 = 0 then f else f + 1

/-- Python int() applied to a float: truncation toward zero. -/
def ratTrunc (q : ℚ) : Int :=
  if q < 0 then -⌊-q⌋ else ⌊q⌋

-- ===================== data model (DB tables as records) =====================

/-- Row of `actors`.  Only the columns the combat core reads are kept;
`meta` is modelled by its two numeric keys used in attack resolution. -/
structure Actor where
  id : String
  node_id : Option String
  x : Int
  y : Int
  hp : Int
  resistances : List (String × ℚ)
  meta_acc_bonus : Int
  meta_evasion : Int
  deriving DecidableEq

/-- Row of `item_kinds`.  `props` is modelled by the two keys the combat
core extracts from it (`damage`, `crit_mult`). -/
structure ItemKind where
  id : String
  title : String
  weapon_class : Option String
  damage_type : Option String
  opt_range : Option Int
  max_range : Option Int
  min_range : Option Int
  near_penalty : Option Int
  crit_chance : Option ℚ
  hit_bonus : Option Int
  ammo_type : Option String
  tags : List String
  armor_level : Option Int
  props_damage : Option Int
  props_crit_mult : Option ℚ
  deriving DecidableEq

/-- Row of `items`. -/
structure Item where
  id : String
  kind_id : String
  charges : Option Int
  deriving DecidableEq

/-- Row of `inventories`. -/
structure Inventory where
  actor_id : String
  left_item : Option String
  right_item : Option String
  backpack : List String
  equipped_armor : Option String
  deriving DecidableEq

/-- Row of `actor_statuses`.  `meta` is modelled by the four numeric keys
read by `get_status_combat_mods`; list position is creation order.
`stack_count` renders the column named stacks in the table. -/
structure StatusRow where
  actor_id : String
  status_id : String
  turns_left : Int
  stack_count : Option Int
  intensity : Option ℚ
  source_id : Option String
  meta_accuracy_mod : Option Int
  meta_damage_bonus : Option Int
  meta_damage_mult : Option ℚ
  meta_armor_bonus : Option Int
  deriving DecidableEq

/-- Row of `battle_participants`. -/
structure Participant where
  session_id : String
  actor_id : String
  team : String
  initiative : Int
  alive : Bool
  deriving DecidableEq

/-- The database state visible to the combat core.  `blockers` is the set
of cells for which `_cell_blocks_los` is true (node_objects with
props.block_los = true). -/
structure GameState where
  actors : List Actor
  kinds : List ItemKind
  items : List Item
  inventories : List Inventory
  statuses : List StatusRow
  participants : List Participant
  blockers : List (String × Int × Int)
  deriving DecidableEq

-- ===================== row lookups and updates =====================

def findActor (s : GameState) (aid : String) : Option Actor :=
  s.actors.find? (fun a => a.id == aid)

def findKind (s : GameState) (kid : String) : Option ItemKind :=
  s.kinds.find? (fun k => k.id == kid)

def findItem (s : GameState) (iid : String) : Option Item :=
  s.items.find? (fun i => i.id == iid)

def findInv (s : GameState) (aid : String) : Option Inventory :=
  s.inventories.find? (fun i => i.actor_id == aid)

/-- items JOIN item_kinds for a given item id. -/
def kindOfItem (s : GameState) (iid : String) : Option ItemKind :=
  (findItem s iid).bind (fun it => findKind s it.kind_id)

/-- UPDATE actors SET hp = f(hp) WHERE id = aid. -/
def updateActorHp (s : GameState) (aid : String) (f : Int → Int) : GameState :=
  { s with actors := s.actors.map (fun a => if a.id == aid then { a with hp := f a.hp } else a) }

-- ===================== services/armor.py =====================

/-- Source `effective_armor_level`: armor_level of the kind of the equipped armor
item, 0 when nothing resolves.  (The Python version would raise on a row
whose armor_level column is NULL; that corner is modelled as 0.) -/
def effective_armor_level (s : GameState) (aid : String) : Int :=
  match ((findInv s aid).bind (fun inv => inv.equipped_armor)).bind
      (fun iid => (kindOfItem s iid).bind (fun k => k.armor_level)) with
  | some lvl => lvl
  | none => 0

/-- Source `apply_armor_reduction(base_damage, armor_level)` from
services/armor.py lines 21-28.  `int(base_damage * 0.1 * max(0, min(5,
armor_level)))` is `base_damage * m / 10` with floor division, exact for
the nonnegative operands that occur here. -/
def apply_armor_reduction (base_damage armor_level : Int) : Int :=
  let d := if base_damage < 1 then 1 else base_damage
  let m := max 0 (min 5 armor_level)
  let reduced := d - d * m / 10
  max 1 reduced

/-- The armor formula exactly as the specification words it:
`max(1, damage - floor(damage * 0.1 * clamp(level,0,5)))`. -/
def spec_armor_formula (damage level : Int) : Int :=
  max 1 (damage - damage * (max 0 (min 5 level)) / 10)

-- ===================== geometry (dao.py lines 1852-1914) =====================

/-- Source `_chebyshev_distance`. -/
def chebyshev_distance (ax ay bx by_ : Int) : Int :=
  max (bx - ax).natAbs (by_ - ay).natAbs

/-- Source `_aligned`. -/
def isAligned (ax ay bx by_ : Int) : Bool :=
  let dx := (bx - ax).natAbs
  let dy := (by_ - ay).natAbs
  dx == 0 || dy == 0 || dx == dy

/-- One step of `_bresenham_line`, mirroring the loop body. -/
def bresenhamStep (dx dy sx sy : Int) (err x y : Int) : Int × Int × Int :=
  let e2 := 2 * err
  let (err, x) := if e2 >= dy then (err + dy, x + sx) else (err, x)
  let (err, y) := if e2 <= dx then (err + dx, y + sy) else (err, y)
  (err, x, y)

/-- Loop of `_bresenham_line`, with fuel bounding the iteration count;
`bresenham_line` below supplies enough fuel to always reach the end
cell, so the generator semantics is preserved. -/
def bresenhamLoop (dx dy sx sy x1 y1 : Int) :
    Nat → Int → Int → Int → List (Int × Int)
  | 0, _, _, _ => []
  | fuel + 1, err, x, y =>
    if x == x1 && y == y1 then []
    else
      let (err2, x2, y2) := bresenhamStep dx dy sx sy err x y
      (x2, y2) :: bresenhamLoop dx dy sx sy x1 y1 fuel err2 x2 y2

/-- Source `_bresenham_line`: cells from A to B, excluding the start cell,
including the end cell. -/
def bresenham_line (ax ay bx by_ : Int) : List (Int × Int) :=
  let dx : Int := (bx - ax).natAbs
  let dy : Int := -((by_ - ay).natAbs : Int)
  let sx : Int := if ax < bx then 1 else -1
  let sy : Int := if ay < by_ then 1 else -1
  bresenhamLoop dx dy sx sy bx by_ ((dx - dy).toNat + 1) (dx + dy) ax ay

/-- Source `_cell_blocks_los`: membership in node_objects with block_los true.
A NULL node id matches no row. -/
def cell_blocks_los (s : GameState) (node_id : Option String) (x y : Int) : Bool :=
  match node_id with
  | some nid => s.blockers.contains (nid, x, y)
  | none => false

/-- Source `check_los` (dao.py lines 1906-1914): walk the rasterized line; the
end cell is always visible, an intermediate blocking cell fails LOS. -/
def check_los (s : GameState) (node_id : Option String) (ax ay bx by_ : Int) : Bool :=
  let rec walk : List (Int × Int) → Bool
    | [] => true
    | (cx, cy) :: rest =>
      if cx == bx && cy == by_ then true
      else if cell_blocks_los s node_id cx cy then false
      else walk rest
  walk (bresenham_line ax ay bx by_)

-- ===================== services/status_mods.py =====================

/-- Result shape of `get_status_combat_mods`. -/
structure CombatMods where
  accuracy_mod_attacker : Int
  damage_bonus_attacker : Int
  damage_mult_attacker : ℚ
  armor_bonus_target : Int
  deriving DecidableEq

/-- Rows feeding `get_status_combat_mods`: statuses of attacker or target
with turns_left > 0. -/
def statusModRows (s : GameState) (attacker_id target_id : String) : List StatusRow :=
  s.statuses.filter
    (fun r => (r.actor_id == attacker_id || r.actor_id == target_id) && r.turns_left > 0)

/-- Loop body of `get_status_combat_mods`: attacker rows add to the
accuracy and damage bonuses and multiply into the damage multiplier,
the remaining (target) rows add to the armor bonus. -/
def statusModsStep (attacker_id : String) (m : CombatMods) (r : StatusRow) : CombatMods :=
  if r.actor_id == attacker_id then
    { m with
      accuracy_mod_attacker := m.accuracy_mod_attacker + r.meta_accuracy_mod.getD 0,
      damage_bonus_attacker := m.damage_bonus_attacker + r.meta_damage_bonus.getD 0,
      damage_mult_attacker := m.damage_mult_attacker * r.meta_damage_mult.getD 1 }
  else
    { m with armor_bonus_target := m.armor_bonus_target + r.meta_armor_bonus.getD 0 }

/-- The folded aggregate, before the sanity check. -/
def statusModsAggregate (s : GameState) (attacker_id target_id : String) : CombatMods :=
  (statusModRows s attacker_id target_id).foldl (statusModsStep attacker_id) ⟨0, 0, 1, 0⟩

/-- Source `get_status_combat_mods` (services/status_mods.py lines 7-57): sum the
attacker accuracy and damage bonuses, multiply the attacker damage
multipliers, sum the target armor bonuses; an aggregate multiplier
outside [0.1, 5.0] is replaced by 1.0. -/
def get_status_combat_mods (s : GameState) (attacker_id target_id : String) : CombatMods :=
  let m := statusModsAggregate s attacker_id target_id
  if 1/10 ≤ m.damage_mult_attacker ∧ m.damage_mult_attacker ≤ 5 then m
  else { m with damage_mult_attacker := 1 }

/-- The raw product of the attacker damage multipliers of the same rows,
before the sanity check. -/
def attacker_mult_product (s : GameState) (attacker_id target_id : String) : ℚ :=
  ((statusModRows s attacker_id target_id).filter (fun r => r.actor_id == attacker_id)).foldl
    (fun p r => p * r.meta_damage_mult.getD 1) 1

/-- The sanity rule exactly as the specification words it: a product
outside [0.1, 5.0] is brought to the nearest bound. -/
def spec_clamp_mult (q : ℚ) : ℚ :=
  if q < 1/10 then 1/10 else if 5 < q then 5 else q

-- ===================== dao_status.py =====================

/-- Combat events, modelled as a closed union of the dict-shaped events
the sources emit, with the payload fields the claims inspect. -/
inductive CombatEvent where
  | NO_WEAPON
  | ATTACK_START (distance : Int) (aligned los : Bool)
  | LOS_BLOCKED
  | ATTACK_OUT_OF_RANGE (reason : String)
  | NO_AMMO (ammo_type : Option String)
  | CONSUME (left : Option Int)
  | AMMO_EMPTY
  | RELOAD_HINT
  | AMMO_CONSUME (left : Option Int)
  | AMMO_DEPLETED
  | HIT_ROLL (accuracy roll : Int)
  | ATTACK_MISS
  | ATTACK_CRIT (crit_mult : ℚ)
  | RESIST_APPLY (resist_mod : ℚ)
  | DAMAGE_APPLY (base final : Int)
  | ATTACK_HIT
  | DEATH (target : String)
  | STATUS_TICK (actor_id status_id : String) (dmg : Option Int)
  | STATUS_EXPIRE (actor_id status_id : String)
  deriving DecidableEq

/-- Effect of one status per tick, the closed `_EFFECT_MAP` dispatch of
dao_status.py lines 12-34: a damaging effect (burn, bleed), a
non-damaging flag (guard, rage), or an empty effect for unknown ids. -/
inductive StatusEffectKind where
  | damage (dmg : Int)
  | flag
  | unknown
  deriving DecidableEq

/-- Dispatch on status_id: burn deals max(0, round(intensity * 2)), bleed
deals max(0, stacks * 1); guard and rage are non-damaging flags. -/
def statusEffect (status_id : String) (intensity : ℚ) (stack_count : Int) : StatusEffectKind :=
  if status_id == "burn" then .damage (max 0 (pythonRound (intensity * 2)))
  else if status_id == "bleed" then .damage (max 0 (stack_count * 1))
  else if status_id == "guard" then .flag
  else if status_id == "rage" then .flag
  else .unknown

/-- One iteration of the loop of `advance_statuses_db` (dao_status.py
lines 139-183), for the snapshot row r: compute the effect with the
falsy-to-default coercions of the source (stacks or 1, intensity or
1.0), apply damage to the actor hp floored at 0, decrement the stored
turns_left, delete the row when it reaches <= 0. -/
def tickOneStatus (s : GameState) (r : StatusRow) : GameState × List CombatEvent :=
  let st := match r.stack_count with
    | some n => if n != 0 then n else 1
    | none => 1
  let inten := match r.intensity with
    | some q => if q != 0 then q else 1
    | none => 1
  let eff := statusEffect r.status_id inten st
  let step : GameState × List CombatEvent :=
    match eff with
    | .damage dmg =>
      if dmg > 0 then
        let s1 := updateActorHp s r.actor_id (fun hp => max 0 (hp - dmg))
        (s1, [CombatEvent.STATUS_TICK r.actor_id r.status_id (some dmg)])
      else
        (s, [CombatEvent.STATUS_TICK r.actor_id r.status_id (some dmg)])
    | .flag => (s, [CombatEvent.STATUS_TICK r.actor_id r.status_id none])
    | .unknown => (s, [])
  let s1 := step.1
  let evs1 := step.2
  let dec := s1.statuses.map
      (fun q => if q.actor_id == r.actor_id && q.status_id == r.status_id
                then { q with turns_left := q.turns_left - 1 } else q)
  let s2 := { s1 with statuses := dec }
  let left := (s2.statuses.find?
      (fun q => q.actor_id == r.actor_id && q.status_id == r.status_id)).map
      (fun q => q.turns_left)
  match left with
  | some l =>
    if l ≤ 0 then
      let kept := s2.statuses.filter
          (fun q => !(q.actor_id == r.actor_id && q.status_id == r.status_id))
      ({ s2 with statuses := kept },
       evs1 ++ [CombatEvent.STATUS_EXPIRE r.actor_id r.status_id])
    else (s2, evs1)
  | none => (s2, evs1)

/-- Source `advance_statuses_db`: snapshot all rows in creation order, tick each
through `tickOneStatus`, then a final cleanup deletes every row whose
turns_left is <= 0. -/
def advance_statuses_db (s : GameState) : GameState × List CombatEvent :=
  let rows := s.statuses
  let out := rows.foldl
    (fun (acc : GameState × List CombatEvent) r =>
      let (s1, e1) := tickOneStatus acc.1 r
      (s1, acc.2 ++ e1))
    (s, [])
  ({ out.1 with statuses := out.1.statuses.filter (fun r => r.turns_left > 0) }, out.2)

/-- Source `get_statuses_db` (dao_status.py lines 38-53): statuses of the actor
with turns_left > 0, in creation order. -/
def get_statuses_db (s : GameState) (aid : String) : List StatusRow :=
  s.statuses.filter (fun r => r.actor_id == aid && r.turns_left > 0)

/-- Result of `apply_status_db`. -/
inductive ApplyStatusResult where
  | err (msg : String)
  | applied (status_id : String) (turns_left : Int)
  deriving DecidableEq

/-- Source `apply_status_db` (dao_status.py lines 56-97): error when the actor
does not exist; otherwise upsert, the conflict branch overwriting
turns_left, stacks and intensity and keeping meta. -/
def apply_status_db (s : GameState) (aid sid : String) (turns_left : Int)
    (intensity : ℚ) (stack_count : Int) (source_id : Option String) :
    GameState × ApplyStatusResult :=
  if (findActor s aid).isNone then (s, .err "actor_not_found")
  else if s.statuses.any (fun r => r.actor_id == aid && r.status_id == sid) then
    let upd := s.statuses.map
        (fun r =>
          if r.actor_id == aid && r.status_id == sid then
            { r with
              turns_left := turns_left
              stack_count := some stack_count
              intensity := some intensity
              source_id := source_id.orElse (fun _ => r.source_id) }
          else r)
    ({ s with statuses := upd }, .applied sid turns_left)
  else
    let row : StatusRow :=
      { actor_id := aid, status_id := sid, turns_left := turns_left,
        stack_count := some stack_count, intensity := some intensity,
        source_id := source_id, meta_accuracy_mod := none,
        meta_damage_bonus := none, meta_damage_mult := none,
        meta_armor_bonus := none }
    ({ s with statuses := s.statuses ++ [row] }, .applied sid turns_left)

-- ===================== perform_attack_db (dao.py lines 2221-2463) =====================

/-- The row produced by the opening SELECT of `perform_attack_db`
(dao.py lines 2236-2248): actors LEFT JOIN inventories LEFT JOIN items
ON items.id = inventories.right_item LEFT JOIN item_kinds.  Exactly the
listed columns are present; in particular neither `k.min_range` nor
`k.near_penalty` is selected. -/
structure AttackRow where
  aid : String
  node_id : Option String
  x : Int
  y : Int
  hp : Int
  item_id : String
  weapon_title : Option String
  weapon_class : Option String
  damage_type : Option String
  opt_range : Option Int
  max_range : Option Int
  crit_chance : Option ℚ
  hit_bonus : Option Int
  ammo_type : Option String
  tags : List String
  base_damage : Option Int
  deriving DecidableEq

/-- Translation of `weapon.get("min_range")`: the mapping behind `AttackRow` has no
min_range key (the SELECT does not list it), so `.get` returns None. -/
def AttackRow.min_range (_ : AttackRow) : Option Int := none

/-- Translation of `weapon.get("near_penalty")`: same missing-key situation. -/
def AttackRow.near_penalty (_ : AttackRow) : Option Int := none

/-- Builds the `AttackRow` for the attacker, or none when the source
returns no row with a non-null item_id (unknown attacker, no inventory,
empty right hand, or dangling right_item): all of these make
`perform_attack_db` answer with the NO_WEAPON event. -/
def attackerWeaponRow (s : GameState) (attacker_id : String) : Option AttackRow :=
  match findActor s attacker_id with
  | none => none
  | some a =>
    match (findInv s attacker_id).bind (fun inv => inv.right_item) with
    | none => none
    | some iid =>
      match findItem s iid with
      | none => none
      | some it =>
        let k := findKind s it.kind_id
        some
          { aid := attacker_id, node_id := a.node_id, x := a.x, y := a.y, hp := a.hp,
            item_id := iid,
            weapon_title := k.map (fun k => k.title),
            weapon_class := k.bind (fun k => k.weapon_class),
            damage_type := k.bind (fun k => k.damage_type),
            opt_range := k.bind (fun k => k.opt_range),
            max_range := k.bind (fun k => k.max_range),
            crit_chance := k.bind (fun k => k.crit_chance),
            hit_bonus := k.bind (fun k => k.hit_bonus),
            ammo_type := k.bind (fun k => k.ammo_type),
            tags := (k.map (fun k => k.tags)).getD [],
            base_damage := k.bind (fun k => k.props_damage) }

/-- Source `_actor_stat_from_meta(aid, "acc_bonus", 0)`. -/
def actor_meta_acc_bonus (s : GameState) (aid : String) : Int :=
  ((findActor s aid).map (fun a => a.meta_acc_bonus)).getD 0

/-- Source `_actor_stat_from_meta(aid, "evasion", 0)`. -/
def actor_meta_evasion (s : GameState) (aid : String) : Int :=
  ((findActor s aid).map (fun a => a.meta_evasion)).getD 0

/-- The accuracy computation of `perform_attack_db` (dao.py lines
2361-2399): start at 100, -30 when not aligned, -5 per cell beyond
opt_range, + weapon hit_bonus, the bow close-quarters penalty (dead in
the source because the row carries no min_range), + attacker acc_bonus,
- target evasion, clipped to [5, 95]. -/
def attackAccuracy (w : AttackRow) (dist : Int) (aligned : Bool)
    (atk_acc tgt_eva : Int) : Int :=
  let acc : Int := 100
  let acc := if aligned then acc else acc - 30
  let opt_r := w.opt_range.getD 0
  let range_penalty := max 0 (dist - opt_r) * 5
  let acc := acc - range_penalty
  let acc := acc + w.hit_bonus.getD 0
  let is_bow := (w.ammo_type.getD "").toLower == "arrow"
      || w.tags.any (fun t => t.toLower == "bow")
  let min_r := (AttackRow.min_range w).getD 0
  let acc :=
    if is_bow && min_r > 0 && (w.weapon_class.getD "").toLower == "ranged" then
      if dist < min_r then
        let near_pen_val := match AttackRow.near_penalty w with
          | some n => if n != 0 then n else 10
          | none => 10
        let close_pen := (min_r - dist) * near_pen_val
        if close_pen > 0 then acc - close_pen else acc
      else acc
    else acc
  let acc := acc + atk_acc - tgt_eva
  max 5 (min 95 acc)

/-- Source `_estimate_accuracy` (dao.py lines 1964-1979), the preview-side
accuracy model, also clipped to [5, 95]. -/
def estimate_accuracy (dist : Int) (aligned : Bool) (opt_range hit_bonus : Int) : Int :=
  let acc : Int := 100
  let acc := if aligned then acc else acc - 30
  let acc := if dist > opt_range then acc - (dist - opt_range) * 5 else acc
  let acc := acc + hit_bonus
  max 5 (min 95 acc)

-- ----- ammo / charge consumption (dao.py lines 2095-2202, 2307-2346) -----

/-- UPDATE of `_spend_one_charge`: NULL stays NULL, a positive counter
is decremented, the rest unchanged. -/
def spendOneCharge (s : GameState) (iid : String) : GameState :=
  let items := s.items.map
      (fun it => if it.id == iid then
          { it with charges := it.charges.map (fun c => if c > 0 then c - 1 else c) }
        else it)
  { s with items := items }

/-- Source `_weapon_ammo_type_for_item`: items JOIN item_kinds, ammo_type. -/
def weapon_ammo_type_for_item (s : GameState) (iid : String) : Option String :=
  (kindOfItem s iid).bind (fun k => k.ammo_type)

/-- Source `_find_ammo_in_backpack`: first backpack item whose kind has the
requested ammo_type (COALESCE(k.ammo_type, '') = ammo). -/
def find_ammo_in_backpack (s : GameState) (aid ammo : String) : Option Item :=
  match findInv s aid with
  | none => none
  | some inv =>
    ((inv.backpack.filterMap (fun iid => findItem s iid)).filter
      (fun it => match findKind s it.kind_id with
        | some k => k.ammo_type.getD "" == ammo
        | none => false)).head?

/-- Deletion branch of `_consume_one_ammo_from_backpack`: DELETE the item
row and array_remove it from the actor backpack. -/
def removeAmmoItem (s : GameState) (aid iid : String) : GameState :=
  let items := s.items.filter (fun it => !(it.id == iid))
  let invs := s.inventories.map
      (fun inv => if inv.actor_id == aid then
          { inv with backpack := inv.backpack.filter (fun j => !(j == iid)) }
        else inv)
  { s with items := items, inventories := invs }

/-- Decrement branch of `_consume_one_ammo_from_backpack`. -/
def decAmmoCharges (s : GameState) (iid : String) : GameState :=
  let items := s.items.map
      (fun it => if it.id == iid then { it with charges := it.charges.map (fun c => c - 1) } else it)
  { s with items := items }

/-- Outcome of the charge/ammo step of `perform_attack_db` (lines
2307-2346): either a NO_AMMO rejection with no state change, or the
post-consumption state with the consumption events. -/
inductive ConsumeOutcome where
  | rejected (e : CombatEvent)
  | proceeded (s : GameState) (evs : List CombatEvent)
  deriving DecidableEq

/-- The charge/ammo step: a weapon with its own charge counter spends one
charge (rejecting at <= 0 and flagging emptiness at exactly 0); a weapon
without a counter but with an ammo_type consumes one unit of the first
matching backpack stack, deleting a stack that reaches 0; otherwise
nothing is consumed. -/
def consumeStep (s : GameState) (attacker_id item_id : String) : ConsumeOutcome :=
  match (findItem s item_id).bind (fun it => it.charges) with
  | some ch =>
    if ch ≤ 0 then .rejected (.NO_AMMO none)
    else
      let s1 := spendOneCharge s item_id
      let left := ch - 1
      let evs := [CombatEvent.CONSUME (some left)] ++
        (if left == 0 then [CombatEvent.AMMO_EMPTY, CombatEvent.RELOAD_HINT] else [])
      .proceeded s1 evs
  | none =>
    match weapon_ammo_type_for_item s item_id with
    | none => .proceeded s []
    | some ammo =>
      if ammo == "" then .proceeded s []
      else
        match find_ammo_in_backpack s attacker_id ammo with
        | none => .rejected (.NO_AMMO (some ammo))
        | some am =>
          match am.charges with
          | none =>
            .proceeded (removeAmmoItem s attacker_id am.id)
              [CombatEvent.AMMO_CONSUME (some 0), CombatEvent.AMMO_DEPLETED]
          | some ch =>
            if ch ≤ 1 then
              .proceeded (removeAmmoItem s attacker_id am.id)
                [CombatEvent.AMMO_CONSUME (some 0), CombatEvent.AMMO_DEPLETED]
            else
              .proceeded (decAmmoCharges s am.id)
                [CombatEvent.AMMO_CONSUME (some (ch - 1))]

/-- Result of `perform_attack_db`: either the hard validation error
({"ok": False, ...}, only for an unknown target) or a successful result
carrying the event list. -/
inductive AttackResult where
  | error (msg : String)
  | ok (events : List CombatEvent)
  deriving DecidableEq

/-- Event list of a result (empty for the hard error). -/
def eventsOf : AttackResult → List CombatEvent
  | .error _ => []
  | .ok evs => evs

/-- Steps 3 to 9 of the attack resolution (dao.py lines 2361-2463),
reached after the charge/ammo step proceeded with state `s1` and events
`pre` (ATTACK_START plus the consumption events): accuracy, hit roll,
crit, resistance, floor at 1, hp update, death event. -/
def resolveRoll (s1 : GameState) (attacker_id target_id : String) (roll : Int)
    (w : AttackRow) (tgt : Actor) (dist : Int) (aligned : Bool)
    (pre : List CombatEvent) : GameState × AttackResult :=
  let atk_acc := actor_meta_acc_bonus s1 attacker_id
  let tgt_eva := actor_meta_evasion s1 target_id
  let acc := attackAccuracy w dist aligned atk_acc tgt_eva
  let evs0 := pre ++ [CombatEvent.HIT_ROLL acc roll]
  if roll > acc then (s1, .ok (evs0 ++ [.ATTACK_MISS]))
  else
    let base0 : Int := match w.base_damage with
      | some d => if d != 0 then d else 5
      | none => 5
    let crit_mult : ℚ := ((kindOfItem s1 w.item_id).bind
        (fun k => k.props_crit_mult)).getD 2
    let crit := (roll : ℚ) ≤ w.crit_chance.getD 0
    let base1 := if crit then pythonRound ((base0 : ℚ) * crit_mult) else base0
    let critEvs := if crit then [CombatEvent.ATTACK_CRIT crit_mult] else []
    let dmg_type := match w.damage_type with
      | some t => if t != "" then t else "physical"
      | none => "physical"
    let resist : ℚ :=
      ((tgt.resistances.find? (fun p => p.1 == dmg_type)).map
        (fun p => p.2)).getD 1
    let final := max 1 (ratTrunc ((base1 : ℚ) * resist))
    let s2 := updateActorHp s1 target_id (fun hp => max (hp - final) 0)
    let nhp := ((findActor s2 target_id).map (fun a => a.hp)).getD 0
    let deathEvs := if nhp ≤ 0 then [CombatEvent.DEATH target_id] else []
    let evs := evs0 ++ critEvs ++
      [CombatEvent.RESIST_APPLY resist,
       CombatEvent.DAMAGE_APPLY base1 final,
       CombatEvent.ATTACK_HIT] ++ deathEvs
    (s2, .ok evs)

/-- Source `perform_attack_db` (dao.py lines 2221-2463) as a pure state
transformer; the single `random.randint(1, 100)` draw is the `roll`
parameter.  Order of the source: weapon row (right hand only), target
row, geometry, LOS, max_range, melee adjacency, charge/ammo consumption,
then the roll resolution of `resolveRoll`. -/
def performAttack (s : GameState) (attacker_id target_id : String) (roll : Int) :
    GameState × AttackResult :=
  match attackerWeaponRow s attacker_id with
  | none => (s, .ok [.NO_WEAPON])
  | some w =>
    match findActor s target_id with
    | none => (s, .error "target_not_found")
    | some tgt =>
      let dx : Int := ((w.x - tgt.x).natAbs : Int)
      let dy : Int := ((w.y - tgt.y).natAbs : Int)
      let dist := max dx dy
      let aligned := dx == 0 || dy == 0 || dx == dy
      let los := check_los s w.node_id w.x w.y tgt.x tgt.y
      let start := CombatEvent.ATTACK_START dist aligned los
      if !los then (s, .ok [start, .LOS_BLOCKED])
      else
        let max_r := w.max_range.getD 0
        if max_r > 0 && dist > max_r then
          (s, .ok [start, .ATTACK_OUT_OF_RANGE "max_range"])
        else if (w.weapon_class.getD "").toLower == "melee" && dist != 1 then
          (s, .ok [start, .ATTACK_OUT_OF_RANGE "melee_requires_adjacent"])
        else
          match consumeStep s attacker_id w.item_id with
          | .rejected e => (s, .ok [start, e])
          | .proceeded s1 consumeEvs =>
            resolveRoll s1 attacker_id target_id roll w tgt dist aligned
              ([start] ++ consumeEvs)

/-- Source `_weapon_in_hand` (dao.py lines 1927-1962), the preview-side weapon
resolver: right hand first, fallback to the left hand; the second
component is the joined kind row when it resolves. -/
def weapon_in_hand (s : GameState) (aid : String) :
    Option String × Option ItemKind :=
  match findInv s aid with
  | none => (none, none)
  | some inv =>
    match inv.right_item.orElse (fun _ => inv.left_item) with
    | none => (none, none)
    | some iid => (some iid, kindOfItem s iid)

-- ===================== reactive counter (spec section 4.6) =====================

/-- Severity band of the reactive counter. -/
inductive ReactionBand where
  | press
  | noReaction
  | rage
  | stagger
  deriving DecidableEq

/-- Modelled from the spec: `npc_reactive_counter_db` is imported from
app.dao by routers/combat.py (line 77) but no definition of it exists in
the sources, so its behaviour is taken from section 4.6 of the
specification.  Band classification for received damage: at most 5 a
press, 6 to 11 nothing, at least 12 a rage with probability 0.20 and a
stagger otherwise; the probability draw is the injected `rage_roll`,
uniform on [0,1). -/
def classify_reaction (damage : Int) (rage_roll : ℚ) : ReactionBand :=
  if damage ≤ 5 then .press
  else if damage ≤ 11 then .noReaction
  else if rage_roll < 1/5 then .rage
  else .stagger

/-- Modelled from the spec: the 1-turn modifier each band grants the
defender, as an actor_statuses row whose meta keys feed
`get_status_combat_mods`.  The spec fixes only the shapes (press:
+accuracy and +damage_bonus; rage: +accuracy and a damage multiplier
above 1; stagger: -accuracy); representative magnitudes are used. -/
def reaction_status_row (npc_id : String) : ReactionBand → Option StatusRow
  | .press => some
      { actor_id := npc_id, status_id := "press", turns_left := 1,
        stack_count := some 1, intensity := some 1, source_id := none,
        meta_accuracy_mod := some 10, meta_damage_bonus := some 2,
        meta_damage_mult := none, meta_armor_bonus := none }
  | .noReaction => none
  | .rage => some
      { actor_id := npc_id, status_id := "rage", turns_left := 1,
        stack_count := some 1, intensity := some 1, source_id := none,
        meta_accuracy_mod := some 10, meta_damage_bonus := none,
        meta_damage_mult := some (3/2), meta_armor_bonus := none }
  | .stagger => some
      { actor_id := npc_id, status_id := "stagger", turns_left := 1,
        stack_count := some 1, intensity := some 1, source_id := none,
        meta_accuracy_mod := some (-10), meta_damage_bonus := none,
        meta_damage_mult := none, meta_armor_bonus := none }

/-- Modelled from the spec: upsert of the reaction modifier onto the
defender (replace any previous row of the same status id, keep creation
order semantics by appending). -/
def apply_reaction_status (s : GameState) (npc_id : String) (band : ReactionBand) :
    GameState :=
  match reaction_status_row npc_id band with
  | none => s
  | some row =>
    let kept := s.statuses.filter
        (fun r => !(r.actor_id == npc_id && r.status_id == row.status_id))
    { s with statuses := kept ++ [row] }

/-- Modelled from the spec: the reactive counter classifies the received
damage, grants the defender the corresponding 1-turn modifier, then the
defender performs an attack against the attacker through the Accuracy
and Damage Model. -/
def npc_reactive_counter_db (s : GameState) (npc_id target_id : String)
    (received_damage : Int) (rage_roll : ℚ) (hit_roll : Int) :
    GameState × AttackResult :=
  let band := classify_reaction received_damage rage_roll
  let s1 := apply_reaction_status s npc_id band
  performAttack s1 npc_id target_id hit_roll

-- ===================== concrete states for witnesses =====================

/-- A plain melee sword kind: damage 10 in props, adjacent range, no crit. -/
def kSword : ItemKind :=
  { id := "k_sword", title := "sword", weapon_class := some "melee",
    damage_type := some "slash", opt_range := some 1, max_range := some 1,
    min_range := none, near_penalty := none, crit_chance := some 0,
    hit_bonus := some 0, ammo_type := none, tags := [],
    armor_level := none, props_damage := some 10, props_crit_mult := none }

/-- An armor kind of level 2. -/
def kMail : ItemKind :=
  { id := "k_mail", title := "mail", weapon_class := none,
    damage_type := none, opt_range := none, max_range := none,
    min_range := none, near_penalty := none, crit_chance := none,
    hit_bonus := none, ammo_type := none, tags := [],
    armor_level := some 2, props_damage := none, props_crit_mult := none }

/-- A bow kind: ranged, arrow ammo, bow tag, declared min_range 3 and
near_penalty 10 on the kind row. -/
def kBow : ItemKind :=
  { id := "k_bow", title := "bow", weapon_class := some "ranged",
    damage_type := some "pierce", opt_range := some 3, max_range := some 5,
    min_range := some 3, near_penalty := some 10, crit_chance := some 0,
    hit_bonus := some 0, ammo_type := some "arrow", tags := ["bow"],
    armor_level := none, props_damage := some 6, props_crit_mult := none }

/-- The arrow ammunition kind. -/
def kArrow : ItemKind :=
  { id := "k_arrow", title := "arrow", weapon_class := none,
    damage_type := none, opt_range := none, max_range := none,
    min_range := none, near_penalty := none, crit_chance := none,
    hit_bonus := none, ammo_type := some "arrow", tags := [],
    armor_level := none, props_damage := none, props_crit_mult := none }

/-- Attacker at (0,0) with the sword in the right hand; target at (1,0)
with hp 20, no resistances, wearing the level-2 mail. -/
def cArmor : GameState :=
  { actors :=
      [{ id := "atk", node_id := some "n", x := 0, y := 0, hp := 10,
         resistances := [], meta_acc_bonus := 0, meta_evasion := 0 },
       { id := "tgt", node_id := some "n", x := 1, y := 0, hp := 20,
         resistances := [], meta_acc_bonus := 0, meta_evasion := 0 }],
    kinds := [kSword, kMail],
    items := [{ id := "sword", kind_id := "k_sword", charges := none },
              { id := "mail", kind_id := "k_mail", charges := none }],
    inventories :=
      [{ actor_id := "atk", left_item := none, right_item := some "sword",
         backpack := [], equipped_armor := none },
       { actor_id := "tgt", left_item := none, right_item := none,
         backpack := [], equipped_armor := some "mail" }],
    statuses := [], participants := [], blockers := [] }

/-- Same scene with target hp 3 and a battle participant row for the
target (alive = true). -/
def cKill : GameState :=
  { cArmor with
    actors :=
      [{ id := "atk", node_id := some "n", x := 0, y := 0, hp := 10,
         resistances := [], meta_acc_bonus := 0, meta_evasion := 0 },
       { id := "tgt", node_id := some "n", x := 1, y := 0, hp := 3,
         resistances := [], meta_acc_bonus := 0, meta_evasion := 0 }],
    participants :=
      [{ session_id := "s1", actor_id := "tgt", team := "neutral",
         initiative := 0, alive := true }] }

/-- The attacker holds the sword only in the left (secondary) hand. -/
def cLeftOnly : GameState :=
  { cArmor with
    inventories :=
      [{ actor_id := "atk", left_item := some "sword", right_item := none,
         backpack := [], equipped_armor := none },
       { actor_id := "tgt", left_item := none, right_item := none,
         backpack := [], equipped_armor := some "mail" }] }

/-- Bow attacker at point-blank range: distance 1, the kind declares
min_range 3 and near_penalty 10, an arrow stack of 3 in the backpack. -/
def cBow : GameState :=
  { actors :=
      [{ id := "atk", node_id := some "n", x := 0, y := 0, hp := 10,
         resistances := [], meta_acc_bonus := 0, meta_evasion := 0 },
       { id := "tgt", node_id := some "n", x := 1, y := 0, hp := 20,
         resistances := [], meta_acc_bonus := 0, meta_evasion := 0 }],
    kinds := [kBow, kArrow],
    items := [{ id := "bow1", kind_id := "k_bow", charges := none },
              { id := "arr1", kind_id := "k_arrow", charges := some 3 }],
    inventories :=
      [{ actor_id := "atk", left_item := none, right_item := some "bow1",
         backpack := ["arr1"], equipped_armor := none },
       { actor_id := "tgt", left_item := none, right_item := none,
         backpack := [], equipped_armor := none }],
    statuses := [], participants := [], blockers := [] }

/-- One attacker status with damage_mult_attacker = 10, turns_left 1. -/
def cMult : GameState :=
  { cArmor with
    statuses :=
      [{ actor_id := "atk", status_id := "boost", turns_left := 1,
         stack_count := some 1, intensity := some 1, source_id := none,
         meta_accuracy_mod := none, meta_damage_bonus := none,
         meta_damage_mult := some 10, meta_armor_bonus := none }] }

/-- Target two cells away behind a LOS-blocking object at (1,0). -/
def cBlocked : GameState :=
  { cArmor with
    actors :=
      [{ id := "atk", node_id := some "n", x := 0, y := 0, hp := 10,
         resistances := [], meta_acc_bonus := 0, meta_evasion := 0 },
       { id := "tgt", node_id := some "n", x := 2, y := 0, hp := 20,
         resistances := [], meta_acc_bonus := 0, meta_evasion := 0 }],
    blockers := [("n", 1, 0)] }

-- ===================== helper lemmas =====================

/-- The events a proceeding consume step can emit. -/
def isAmmoEvent : CombatEvent → Bool
  | .CONSUME _ => true
  | .AMMO_EMPTY => true
  | .RELOAD_HINT => true
  | .AMMO_CONSUME _ => true
  | .AMMO_DEPLETED => true
  | _ => false

theorem consume_proceeded_events {s : GameState} {aid iid : String}
    {s1 : GameState} {evs : List CombatEvent}
    (h : consumeStep s aid iid = .proceeded s1 evs) :
    evs.all isAmmoEvent = true := by
  unfold consumeStep at h
  repeat' split at h
  all_goals cases h
  all_goals first
    | rfl
    | (split <;> rfl)

/-- A proceeding consume step only touches items and inventories. -/
theorem consume_proceeded_state {s : GameState} {aid iid : String}
    {s1 : GameState} {evs : List CombatEvent}
    (h : consumeStep s aid iid = .proceeded s1 evs) :
    s1.actors = s.actors ∧ s1.participants = s.participants ∧
    s1.statuses = s.statuses := by
  unfold consumeStep at h
  repeat' split at h
  all_goals cases h
  all_goals exact ⟨rfl, rfl, rfl⟩

/-- Bounds of the clipped attack accuracy. -/
theorem attackAccuracy_bounds (w : AttackRow) (dist : Int) (aligned : Bool)
    (atk_acc tgt_eva : Int) :
    5 ≤ attackAccuracy w dist aligned atk_acc tgt_eva ∧
      attackAccuracy w dist aligned atk_acc tgt_eva ≤ 95 := by
  unfold attackAccuracy
  constructor
  · exact le_max_left _ _
  · exact max_le (by norm_num) (min_le_left _ _)

theorem find?_map_hp (aid : String) (f : Int → Int) : ∀ l : List Actor,
    (l.map (fun a => if a.id == aid then { a with hp := f a.hp } else a)).find?
        (fun a => a.id == aid)
      = (l.find? (fun a => a.id == aid)).map (fun a => { a with hp := f a.hp })
  | [] => rfl
  | a :: l => by
    by_cases h : a.id == aid
    · simp only [List.map_cons, h, if_pos, List.find?_cons]
      have hid : (({ a with hp := f a.hp } : Actor).id == aid) = true := h
      simp [hid, h]
    · simp only [List.map_cons, h, Bool.false_eq_true, if_false, List.find?_cons, h]
      simpa [h] using find?_map_hp aid f l

/-- Searching an hp-updated actor list finds the hp-updated actor. -/
theorem find_updateActorHp (s : GameState) (aid : String) (f : Int → Int) :
    findActor (updateActorHp s aid f) aid
      = (findActor s aid).map (fun a => { a with hp := f a.hp }) := by
  unfold findActor updateActorHp
  exact find?_map_hp aid f s.actors

-- ===================== C7 =====================

/-- C7: the claim asserts idempotence of `apply_armor_reduction`; it fails
at damage 20, armor level 1: one application gives 18, a second gives 17. -/
theorem C7_not_idempotent_counterexample :
    apply_armor_reduction (apply_armor_reduction 20 1) 1 ≠ apply_armor_reduction 20 1 := by
  decide

/-- C7 (amended): for damage >= 1, `apply_armor_reduction` equals
max(1, damage - floor(damage * 0.1 * clamp(level,0,5))), is pure and
never returns below 1; it is not idempotent. -/
theorem C7_armor_formula_amended (d L : Int) (h : 1 ≤ d) :
    apply_armor_reduction d L = spec_armor_formula d L ∧
      1 ≤ apply_armor_reduction d L := by
  unfold apply_armor_reduction spec_armor_formula
  rw [if_neg (by omega)]
  exact ⟨rfl, le_max_left _ _⟩

theorem C7_armor_formula_amended_witness :
    apply_armor_reduction 20 1 = spec_armor_formula 20 1 ∧
      1 ≤ apply_armor_reduction 20 1 :=
  C7_armor_formula_amended 20 1 (by decide)

-- ===================== C8 =====================

/-- C8: the claim says an out-of-range aggregate damage multiplier is
clamped to the nearest bound; on a single status with multiplier 10 the
source instead resets the aggregate to 1.0, not to 5.0. -/
theorem C8_reset_not_clamp_counterexample :
    (get_status_combat_mods cMult "atk" "tgt").damage_mult_attacker
      ≠ spec_clamp_mult (attacker_mult_product cMult "atk" "tgt") := by
  have h1 : (get_status_combat_mods cMult "atk" "tgt").damage_mult_attacker = 1 := by
    norm_num [get_status_combat_mods, statusModsAggregate, statusModRows,
      statusModsStep, cMult, cArmor]
  have h2 : spec_clamp_mult (attacker_mult_product cMult "atk" "tgt") = 5 := by
    norm_num [spec_clamp_mult, attacker_mult_product, statusModRows, cMult, cArmor]
  rw [h1, h2]
  norm_num

theorem statusMods_mult_fold (attacker_id : String) (rows : List StatusRow)
    (m : CombatMods) :
    (rows.foldl (statusModsStep attacker_id) m).damage_mult_attacker
      = (rows.filter (fun r => r.actor_id == attacker_id)).foldl
          (fun p r => p * r.meta_damage_mult.getD 1) m.damage_mult_attacker := by
  induction rows generalizing m with
  | nil => rfl
  | cons r l ih =>
    by_cases h : r.actor_id == attacker_id
    · simp only [List.foldl_cons, List.filter_cons, h, if_pos]
      rw [ih]
      simp [statusModsStep, h]
    · simp only [List.foldl_cons, List.filter_cons, h, Bool.false_eq_true, if_false]
      rw [ih]
      simp [statusModsStep, h]

theorem aggregate_mult_eq_product (s : GameState) (attacker_id target_id : String) :
    (statusModsAggregate s attacker_id target_id).damage_mult_attacker
      = attacker_mult_product s attacker_id target_id := by
  unfold statusModsAggregate attacker_mult_product
  exact statusMods_mult_fold attacker_id (statusModRows s attacker_id target_id) ⟨0, 0, 1, 0⟩

/-- C8 (amended): the aggregated damage_mult_attacker equals the product
of the active attacker statuses when that product lies in [0.1, 5.0],
and is otherwise reset to the neutral value 1.0 (it is not clamped to
the nearest bound). -/
theorem C8_mult_product_or_reset (s : GameState) (attacker_id target_id : String) :
    (get_status_combat_mods s attacker_id target_id).damage_mult_attacker
      = (if 1/10 ≤ attacker_mult_product s attacker_id target_id ∧
            attacker_mult_product s attacker_id target_id ≤ 5
         then attacker_mult_product s attacker_id target_id else 1) := by
  have hm := aggregate_mult_eq_product s attacker_id target_id
  unfold get_status_combat_mods
  simp only [hm]
  split <;> rename_i hcond <;> simp [hcond, hm]

/-- Full evaluation of the cArmor attack with roll 50: accuracy 95, hit,
no crit, resistance 1, final damage 10 with no armor term, target hp
20 to 10. -/
theorem performAttack_cArmor_eval : performAttack cArmor "atk" "tgt" 50 =
    ({ cArmor with actors :=
        [{ id := "atk", node_id := some "n", x := 0, y := 0, hp := 10,
           resistances := [], meta_acc_bonus := 0, meta_evasion := 0 },
         { id := "tgt", node_id := some "n", x := 1, y := 0, hp := 10,
           resistances := [], meta_acc_bonus := 0, meta_evasion := 0 }] },
     .ok [.ATTACK_START 1 true true, .HIT_ROLL 95 50, .RESIST_APPLY 1,
       .DAMAGE_APPLY 10 10, .ATTACK_HIT]) := by
  simp only [performAttack]
  rw [show attackerWeaponRow cArmor "atk" = some
      { aid := "atk", node_id := some "n", x := 0, y := 0, hp := 10,
        item_id := "sword", weapon_title := some "sword",
        weapon_class := some "melee", damage_type := some "slash",
        opt_range := some 1, max_range := some 1, crit_chance := some 0,
        hit_bonus := some 0, ammo_type := none, tags := [],
        base_damage := some 10 } from rfl]
  rw [show findActor cArmor "tgt" = some
      { id := "tgt", node_id := some "n", x := 1, y := 0, hp := 20,
        resistances := [], meta_acc_bonus := 0, meta_evasion := 0 } from rfl]
  norm_num
  rw [show check_los cArmor (some "n") 0 0 1 0 = true from rfl]
  rw [show consumeStep cArmor "atk" "sword" = ConsumeOutcome.proceeded cArmor [] from rfl]
  norm_num
  simp only [resolveRoll]
  rw [show actor_meta_acc_bonus cArmor "atk" = 0 from rfl]
  rw [show actor_meta_evasion cArmor "tgt" = 0 from rfl]
  norm_num [attackAccuracy, AttackRow.min_range, AttackRow.near_penalty, ratTrunc]
  exact ⟨rfl, by decide⟩

/-- Full evaluation of the cKill attack with roll 50: the hit brings the
target hp from 3 to 0 and a DEATH event is emitted. -/
theorem performAttack_cKill_eval : performAttack cKill "atk" "tgt" 50 =
    ({ cKill with actors :=
        [{ id := "atk", node_id := some "n", x := 0, y := 0, hp := 10,
           resistances := [], meta_acc_bonus := 0, meta_evasion := 0 },
         { id := "tgt", node_id := some "n", x := 1, y := 0, hp := 0,
           resistances := [], meta_acc_bonus := 0, meta_evasion := 0 }] },
     .ok [.ATTACK_START 1 true true, .HIT_ROLL 95 50, .RESIST_APPLY 1,
       .DAMAGE_APPLY 10 10, .ATTACK_HIT, .DEATH "tgt"]) := by
  simp only [performAttack]
  rw [show attackerWeaponRow cKill "atk" = some
      { aid := "atk", node_id := some "n", x := 0, y := 0, hp := 10,
        item_id := "sword", weapon_title := some "sword",
        weapon_class := some "melee", damage_type := some "slash",
        opt_range := some 1, max_range := some 1, crit_chance := some 0,
        hit_bonus := some 0, ammo_type := none, tags := [],
        base_damage := some 10 } from rfl]
  rw [show findActor cKill "tgt" = some
      { id := "tgt", node_id := some "n", x := 1, y := 0, hp := 3,
        resistances := [], meta_acc_bonus := 0, meta_evasion := 0 } from rfl]
  norm_num
  rw [show check_los cKill (some "n") 0 0 1 0 = true from rfl]
  rw [show consumeStep cKill "atk" "sword" = ConsumeOutcome.proceeded cKill [] from rfl]
  norm_num
  simp only [resolveRoll]
  rw [show actor_meta_acc_bonus cKill "atk" = 0 from rfl]
  rw [show actor_meta_evasion cKill "tgt" = 0 from rfl]
  norm_num [attackAccuracy, AttackRow.min_range, AttackRow.near_penalty, ratTrunc]
  exact ⟨rfl, by decide⟩

/-- Full evaluation of the cBow attack with roll 50: one arrow consumed
(3 to 2), accuracy 95 with no near penalty despite distance 1 being
under the declared min_range 3, hit for 6. -/
theorem performAttack_cBow_eval : performAttack cBow "atk" "tgt" 50 =
    ({ cBow with
        actors :=
          [{ id := "atk", node_id := some "n", x := 0, y := 0, hp := 10,
             resistances := [], meta_acc_bonus := 0, meta_evasion := 0 },
           { id := "tgt", node_id := some "n", x := 1, y := 0, hp := 14,
             resistances := [], meta_acc_bonus := 0, meta_evasion := 0 }],
        items := [{ id := "bow1", kind_id := "k_bow", charges := none },
                  { id := "arr1", kind_id := "k_arrow", charges := some 2 }] },
     .ok [.ATTACK_START 1 true true, .AMMO_CONSUME (some 2), .HIT_ROLL 95 50,
       .RESIST_APPLY 1, .DAMAGE_APPLY 6 6, .ATTACK_HIT]) := by
  simp only [performAttack]
  rw [show attackerWeaponRow cBow "atk" = some
      { aid := "atk", node_id := some "n", x := 0, y := 0, hp := 10,
        item_id := "bow1", weapon_title := some "bow",
        weapon_class := some "ranged", damage_type := some "pierce",
        opt_range := some 3, max_range := some 5, crit_chance := some 0,
        hit_bonus := some 0, ammo_type := some "arrow", tags := ["bow"],
        base_damage := some 6 } from rfl]
  rw [show findActor cBow "tgt" = some
      { id := "tgt", node_id := some "n", x := 1, y := 0, hp := 20,
        resistances := [], meta_acc_bonus := 0, meta_evasion := 0 } from rfl]
  norm_num
  rw [show check_los cBow (some "n") 0 0 1 0 = true from rfl]
  rw [show consumeStep cBow "atk" "bow1" = ConsumeOutcome.proceeded
      { cBow with items := [{ id := "bow1", kind_id := "k_bow", charges := none },
                            { id := "arr1", kind_id := "k_arrow", charges := some 2 }] }
      [CombatEvent.AMMO_CONSUME (some 2)] from rfl]
  norm_num
  simp only [resolveRoll]
  rw [show actor_meta_acc_bonus
      { cBow with items := [{ id := "bow1", kind_id := "k_bow", charges := none },
                            { id := "arr1", kind_id := "k_arrow", charges := some 2 }] }
      "atk" = 0 from rfl]
  rw [show actor_meta_evasion
      { cBow with items := [{ id := "bow1", kind_id := "k_bow", charges := none },
                            { id := "arr1", kind_id := "k_arrow", charges := some 2 }] }
      "tgt" = 0 from rfl]
  norm_num [attackAccuracy, AttackRow.min_range, AttackRow.near_penalty, ratTrunc]
  exact ⟨rfl, by decide⟩

theorem consume_rejected_shape {s : GameState} {aid iid : String} {e : CombatEvent}
    (h : consumeStep s aid iid = .rejected e) : ∃ x, e = CombatEvent.NO_AMMO x := by
  unfold consumeStep at h
  repeat' split at h
  all_goals cases h
  all_goals exact ⟨_, rfl⟩

theorem findActor_congr {s1 s2 : GameState} (h : s1.actors = s2.actors) (aid : String) :
    findActor s1 aid = findActor s2 aid := by
  unfold findActor
  rw [h]

/-- Outcome analysis of the roll resolution: either a miss that leaves
the state alone, or a hit that updates only the target hp, with the
damage pipeline crit, resistance, floor at 1 and the death event bound
to the new hp. -/
theorem resolveRoll_shape (s1 : GameState) (a t : String) (roll : Int)
    (w : AttackRow) (tgt : Actor) (dist : Int) (aligned : Bool)
    (pre : List CombatEvent) (tgt1 : Actor) (hft : findActor s1 t = some tgt1) :
    (∃ acc : Int, 5 ≤ acc ∧ acc ≤ 95 ∧
      resolveRoll s1 a t roll w tgt dist aligned pre
        = (s1, .ok ((pre ++ [CombatEvent.HIT_ROLL acc roll])
            ++ [CombatEvent.ATTACK_MISS])))
    ∨ (∃ (acc b1 final : Int) (resist : ℚ)
          (critEvs deathEvs : List CombatEvent) (ta : Actor),
        5 ≤ acc ∧ acc ≤ 95 ∧
        final = max 1 (ratTrunc ((b1 : ℚ) * resist)) ∧
        (critEvs = [] ∨ ∃ cm, critEvs = [CombatEvent.ATTACK_CRIT cm]) ∧
        findActor (updateActorHp s1 t (fun hp => max (hp - final) 0)) t = some ta ∧
        deathEvs = (if ta.hp ≤ 0 then [CombatEvent.DEATH t] else []) ∧
        resolveRoll s1 a t roll w tgt dist aligned pre
          = (updateActorHp s1 t (fun hp => max (hp - final) 0),
             .ok ((pre ++ [CombatEvent.HIT_ROLL acc roll]) ++ critEvs
               ++ [CombatEvent.RESIST_APPLY resist,
                   CombatEvent.DAMAGE_APPLY b1 final,
                   CombatEvent.ATTACK_HIT] ++ deathEvs))) := by
  unfold resolveRoll
  simp only []
  split
  · exact Or.inl ⟨_, (attackAccuracy_bounds _ _ _ _ _).1,
      (attackAccuracy_bounds _ _ _ _ _).2, rfl⟩
  · have h2 := find_updateActorHp s1 t
    rw [hft] at h2
    simp only [Option.map_some'] at h2
    rw [h2]
    simp only [Option.map_some', Option.getD_some]
    by_cases hcrit : (roll : ℚ) ≤ w.crit_chance.getD 0
    · simp only [hcrit, if_true]
      exact Or.inr ⟨_, _, _, _, _, _, _,
        (attackAccuracy_bounds _ _ _ _ _).1, (attackAccuracy_bounds _ _ _ _ _).2,
        rfl, Or.inr ⟨_, rfl⟩, h2 _, rfl, rfl⟩
    · simp only [hcrit, if_false]
      exact Or.inr ⟨_, _, _, _, _, _, _,
        (attackAccuracy_bounds _ _ _ _ _).1, (attackAccuracy_bounds _ _ _ _ _).2,
        rfl, Or.inl rfl, h2 _, rfl, rfl⟩

/-- Outcome analysis of `perform_attack_db`: every run is a NO_WEAPON
answer, the unknown-target error, one of the three precondition
rejections (all leaving the state untouched), a NO_AMMO rejection
(state untouched), a miss, or a hit with the crit/resist/floor pipeline
and the death event bound to the new hp.  The consume step only ever
touches items and inventories. -/
theorem performAttack_shape (s : GameState) (a t : String) (roll : Int) :
    (attackerWeaponRow s a = none ∧ performAttack s a t roll = (s, .ok [.NO_WEAPON]))
    ∨ performAttack s a t roll = (s, .error "target_not_found")
    ∨ (∃ d al, performAttack s a t roll
        = (s, .ok [.ATTACK_START d al false, .LOS_BLOCKED]))
    ∨ (∃ d al reason, performAttack s a t roll
        = (s, .ok [.ATTACK_START d al true, .ATTACK_OUT_OF_RANGE reason]))
    ∨ (∃ d al x, performAttack s a t roll
        = (s, .ok [.ATTACK_START d al true, .NO_AMMO x]))
    ∨ (∃ (s1 : GameState) (pre : List CombatEvent) (acc : Int),
        s1.actors = s.actors ∧ s1.participants = s.participants ∧
        s1.statuses = s.statuses ∧
        (∃ d al consumeEvs, pre = CombatEvent.ATTACK_START d al true :: consumeEvs ∧
          consumeEvs.all isAmmoEvent = true) ∧
        5 ≤ acc ∧ acc ≤ 95 ∧
        performAttack s a t roll
          = (s1, .ok ((pre ++ [CombatEvent.HIT_ROLL acc roll])
              ++ [CombatEvent.ATTACK_MISS])))
    ∨ (∃ (s1 : GameState) (pre : List CombatEvent) (acc b1 final : Int)
          (resist : ℚ) (critEvs deathEvs : List CombatEvent) (ta : Actor),
        s1.actors = s.actors ∧ s1.participants = s.participants ∧
        s1.statuses = s.statuses ∧
        (∃ d al consumeEvs, pre = CombatEvent.ATTACK_START d al true :: consumeEvs ∧
          consumeEvs.all isAmmoEvent = true) ∧
        5 ≤ acc ∧ acc ≤ 95 ∧
        final = max 1 (ratTrunc ((b1 : ℚ) * resist)) ∧
        (critEvs = [] ∨ ∃ cm, critEvs = [CombatEvent.ATTACK_CRIT cm]) ∧
        findActor (updateActorHp s1 t (fun hp => max (hp - final) 0)) t = some ta ∧
        deathEvs = (if ta.hp ≤ 0 then [CombatEvent.DEATH t] else []) ∧
        performAttack s a t roll
          = (updateActorHp s1 t (fun hp => max (hp - final) 0),
             .ok ((pre ++ [CombatEvent.HIT_ROLL acc roll]) ++ critEvs
               ++ [CombatEvent.RESIST_APPLY resist,
                   CombatEvent.DAMAGE_APPLY b1 final,
                   CombatEvent.ATTACK_HIT] ++ deathEvs))) := by
  generalize hE : performAttack s a t roll = out
  unfold performAttack at hE
  rcases hrow : attackerWeaponRow s a with _ | w <;> rw [hrow] at hE
  · subst hE
    exact Or.inl ⟨rfl, rfl⟩
  · rcases htgt : findActor s t with _ | tgt <;> rw [htgt] at hE
    · subst hE
      exact Or.inr (Or.inl rfl)
    · simp only [] at hE
      split at hE
      · rename_i h
        simp only [Bool.not_eq_true'] at h
        rw [h] at hE
        subst hE
        exact Or.inr (Or.inr (Or.inl ⟨_, _, rfl⟩))
      · rename_i h
        simp only [Bool.not_eq_true', Bool.not_eq_false] at h
        rw [h] at hE
        split at hE
        · subst hE
          exact Or.inr (Or.inr (Or.inr (Or.inl ⟨_, _, _, rfl⟩)))
        · split at hE
          · subst hE
            exact Or.inr (Or.inr (Or.inr (Or.inl ⟨_, _, _, rfl⟩)))
          · split at hE
            · rename_i e heq
              obtain ⟨x, hx⟩ := consume_rejected_shape heq
              subst hx
              subst hE
              exact Or.inr (Or.inr (Or.inr (Or.inr (Or.inl ⟨_, _, _, rfl⟩))))
            · rename_i s1 consumeEvs heq
              have hstate := consume_proceeded_state heq
              have hft : findActor s1 t = some tgt :=
                (findActor_congr hstate.1 t).trans htgt
              rcases resolveRoll_shape s1 a t roll w tgt _ _
                  ([CombatEvent.ATTACK_START _ _ true] ++ consumeEvs) tgt hft with
                ⟨acc, hb1, hb2, hV⟩ |
                ⟨acc, b1, final, resist, critEvs, deathEvs, ta,
                  hb1, hb2, hfin, hcrit, hfa, hde, hV⟩
              · rw [hV] at hE
                subst hE
                exact Or.inr (Or.inr (Or.inr (Or.inr (Or.inr (Or.inl
                  ⟨s1, _, acc, hstate.1, hstate.2.1, hstate.2.2,
                    ⟨_, _, consumeEvs, rfl, consume_proceeded_events heq⟩,
                    hb1, hb2, rfl⟩)))))
              · rw [hV] at hE
                subst hE
                exact Or.inr (Or.inr (Or.inr (Or.inr (Or.inr (Or.inr
                  ⟨s1, _, acc, b1, final, resist, critEvs, deathEvs, ta,
                    hstate.1, hstate.2.1, hstate.2.2,
                    ⟨_, _, consumeEvs, rfl, consume_proceeded_events heq⟩,
                    hb1, hb2, hfin, hcrit, hfa, hde, rfl⟩)))))

theorem not_ammo_not_mem {evs : List CombatEvent}
    (hall : evs.all isAmmoEvent = true) {e : CombatEvent}
    (he : isAmmoEvent e = false) : e ∉ evs := by
  intro hmem
  have h := List.all_eq_true.mp hall e hmem
  rw [he] at h
  exact Bool.false_ne_true h

/-- The blocked-LOS scene rejects before any mutation. -/
theorem performAttack_cBlocked_eval : performAttack cBlocked "atk" "tgt" 50 =
    (cBlocked, .ok [.ATTACK_START 2 true false, .LOS_BLOCKED]) := rfl

-- ===================== C1 =====================

/-- C1: the claim requires the armor-reduction step after crit and
resistance; in the cArmor scene the target wears level-2 armor, the
resistance-adjusted damage is 10, and the claimed formula would give 8,
yet the source deals 10: no armor reduction is applied. -/
theorem C1_no_armor_reduction_counterexample :
    (performAttack cArmor "atk" "tgt" 50).2
      = .ok [.ATTACK_START 1 true true, .HIT_ROLL 95 50, .RESIST_APPLY 1,
          .DAMAGE_APPLY 10 10, .ATTACK_HIT] ∧
    spec_armor_formula 10 (effective_armor_level cArmor "tgt" +
        (get_status_combat_mods cArmor "atk" "tgt").armor_bonus_target) ≠ 10 := by
  constructor
  · rw [performAttack_cArmor_eval]
  · have h1 : effective_armor_level cArmor "tgt" = 2 := rfl
    have h2 : (get_status_combat_mods cArmor "atk" "tgt").armor_bonus_target = 0 := by
      norm_num [get_status_combat_mods, statusModsAggregate, statusModRows, cArmor]
    rw [h1, h2]
    decide

/-- C1 (amended): on every hit the final damage carried by DAMAGE_APPLY
equals max(1, trunc(post-crit damage x resistance)); no armor reduction
term appears, and a hit always deals at least 1 damage. -/
theorem C1_damage_pipeline_amended (s : GameState) (a t : String) (roll : Int)
    (b f : Int) (r : ℚ)
    (hd : CombatEvent.DAMAGE_APPLY b f ∈ eventsOf (performAttack s a t roll).2)
    (hr : CombatEvent.RESIST_APPLY r ∈ eventsOf (performAttack s a t roll).2) :
    f = max 1 (ratTrunc ((b : ℚ) * r)) ∧ 1 ≤ f := by
  rcases performAttack_shape s a t roll with
    ⟨_, hP⟩ | hP | ⟨d, al, hP⟩ | ⟨d, al, reason, hP⟩ | ⟨d, al, x, hP⟩ |
    ⟨s1, pre, acc, _, _, _, ⟨d, al, consumeEvs, hpre, hall⟩, _, _, hP⟩ |
    ⟨s1, pre, acc, b1, final, resist, critEvs, deathEvs, ta, _, _, _,
      ⟨d, al, consumeEvs, hpre, hall⟩, _, _, hfin, hcrit, hfa, hde, hP⟩
  · rw [hP] at hd
    simp [eventsOf] at hd
  · rw [hP] at hd
    simp [eventsOf] at hd
  · rw [hP] at hd
    simp [eventsOf] at hd
  · rw [hP] at hd
    simp [eventsOf] at hd
  · rw [hP] at hd
    simp [eventsOf] at hd
  · rw [hP] at hd
    subst hpre
    have hnd : CombatEvent.DAMAGE_APPLY b f ∉ consumeEvs := not_ammo_not_mem hall rfl
    simp [eventsOf, hnd] at hd
  · rw [hP] at hd hr
    subst hpre
    subst hde
    have hnd : CombatEvent.DAMAGE_APPLY b f ∉ consumeEvs := not_ammo_not_mem hall rfl
    have hnr : CombatEvent.RESIST_APPLY r ∉ consumeEvs := not_ammo_not_mem hall rfl
    rcases hcrit with hc | ⟨cm, hc⟩ <;> subst hc <;>
      by_cases hta : ta.hp ≤ 0 <;>
      simp [eventsOf, hnd, hnr, hta] at hd hr <;>
      obtain ⟨rfl, rfl⟩ := hd <;> rw [hr] <;>
      exact ⟨hfin, hfin ▸ le_max_left _ _⟩

theorem C1_damage_pipeline_amended_witness :
    (10 : Int) = max 1 (ratTrunc ((10 : ℚ) * 1)) ∧ (1 : Int) ≤ 10 :=
  C1_damage_pipeline_amended cArmor "atk" "tgt" 50 10 10 1
    (by rw [performAttack_cArmor_eval]; simp [eventsOf])
    (by rw [performAttack_cArmor_eval]; simp [eventsOf])

-- ===================== C3 =====================

/-- C3: the claim says an attacker whose only weapon sits in the
secondary (left) hand still attacks with it; in the cLeftOnly scene the
sword is in the left hand and the resolution answers NO_WEAPON without
using it. -/
theorem C3_left_hand_ignored_counterexample :
    performAttack cLeftOnly "atk" "tgt" 50 = (cLeftOnly, .ok [.NO_WEAPON]) ∧
    (findInv cLeftOnly "atk").bind (fun i => i.left_item) = some "sword" :=
  ⟨rfl, rfl⟩

/-- C3 (amended): `perform_attack_db` reads only the right hand: the
NO_WEAPON outcome occurs exactly when the right-hand row fails to
resolve, regardless of the left hand; the right-then-left priority of
the claim exists only in the preview helper `_weapon_in_hand`. -/
theorem C3_right_hand_only_amended :
    (∀ (s : GameState) (a t : String) (roll : Int),
      performAttack s a t roll = (s, .ok [CombatEvent.NO_WEAPON]) ↔
        attackerWeaponRow s a = none) ∧
    (∀ (s : GameState) (aid : String) (inv : Inventory) (iid : String),
      findInv s aid = some inv → inv.right_item = some iid →
      (weapon_in_hand s aid).1 = some iid) ∧
    (∀ (s : GameState) (aid : String) (inv : Inventory) (iid : String),
      findInv s aid = some inv → inv.right_item = none → inv.left_item = some iid →
      (weapon_in_hand s aid).1 = some iid) := by
  refine ⟨?_, ?_, ?_⟩
  · intro s a t roll
    constructor
    · intro hEq
      rcases performAttack_shape s a t roll with
        ⟨hrow, hP⟩ | hP | ⟨d, al, hP⟩ | ⟨d, al, reason, hP⟩ | ⟨d, al, x, hP⟩ |
        ⟨s1, pre, acc, _, _, _, ⟨d, al, consumeEvs, hpre, hall⟩, _, _, hP⟩ |
        ⟨s1, pre, acc, b1, final, resist, critEvs, deathEvs, ta, _, _, _,
          ⟨d, al, consumeEvs, hpre, hall⟩, _, _, hfin, hcrit, hfa, hde, hP⟩
      · exact hrow
      all_goals rw [hEq] at hP
      all_goals try subst hpre
      all_goals simp at hP
    · intro hnone
      unfold performAttack
      rw [hnone]
  · intro s aid inv iid hinv hr
    unfold weapon_in_hand
    rw [hinv]
    simp [hr]
  · intro s aid inv iid hinv hr hl
    unfold weapon_in_hand
    rw [hinv]
    simp [hr, hl, Option.orElse]

theorem C3_right_hand_only_amended_witness :
    (weapon_in_hand cLeftOnly "atk").1 = some "sword" ∧
    attackerWeaponRow cLeftOnly "atk" = none :=
  ⟨C3_right_hand_only_amended.2.2 cLeftOnly "atk"
      { actor_id := "atk", left_item := some "sword", right_item := none,
        backpack := [], equipped_armor := none } "sword" rfl rfl rfl,
    (C3_right_hand_only_amended.1 cLeftOnly "atk" "tgt" 50).mp rfl⟩

-- ===================== C4 =====================

/-- C4: the near penalty for bows is dead code: the SELECT of
`perform_attack_db` omits min_range, so the accuracy never includes the
penalty.  In the cBow scene (bow kind with min_range 3, distance 1) the
hit roll uses accuracy 95 where the claim requires 100 - (3-1)x10 = 80;
in general the computed accuracy of any attack contains no near-penalty
term. -/
theorem C4_near_penalty_dead_code :
    (performAttack cBow "atk" "tgt" 50).2
      = .ok [.ATTACK_START 1 true true, .AMMO_CONSUME (some 2), .HIT_ROLL 95 50,
          .RESIST_APPLY 1, .DAMAGE_APPLY 6 6, .ATTACK_HIT] ∧
    (kindOfItem cBow "bow1").bind (fun k => k.min_range) = some 3 ∧
    ∀ (w : AttackRow) (dist : Int) (aligned : Bool) (atk_acc tgt_eva : Int),
      attackAccuracy w dist aligned atk_acc tgt_eva
        = max 5 (min 95 ((if aligned then (100 : Int) else 100 - 30)
            - max 0 (dist - w.opt_range.getD 0) * 5 + w.hit_bonus.getD 0
            + atk_acc - tgt_eva)) := by
  refine ⟨?_, rfl, ?_⟩
  · rw [performAttack_cBow_eval]
  · intro w dist aligned atk_acc tgt_eva
    unfold attackAccuracy
    simp [AttackRow.min_range]

-- ===================== C5 =====================

/-- C5: for all inputs the accuracy used by the hit roll lies in
[5, 95], both in the preview model `_estimate_accuracy` and in the
HIT_ROLL events emitted by `perform_attack_db`. -/
theorem C5_accuracy_clipped :
    (∀ (dist : Int) (aligned : Bool) (opt_range hit_bonus : Int),
      5 ≤ estimate_accuracy dist aligned opt_range hit_bonus ∧
      estimate_accuracy dist aligned opt_range hit_bonus ≤ 95) ∧
    (∀ (s : GameState) (a t : String) (roll acc r : Int),
      CombatEvent.HIT_ROLL acc r ∈ eventsOf (performAttack s a t roll).2 →
      5 ≤ acc ∧ acc ≤ 95) := by
  constructor
  · intro dist aligned opt_range hit_bonus
    unfold estimate_accuracy
    exact ⟨le_max_left _ _, max_le (by norm_num) (min_le_left _ _)⟩
  · intro s a t roll acc r hm
    rcases performAttack_shape s a t roll with
      ⟨_, hP⟩ | hP | ⟨d, al, hP⟩ | ⟨d, al, reason, hP⟩ | ⟨d, al, x, hP⟩ |
      ⟨s1, pre, acc1, _, _, _, ⟨d, al, consumeEvs, hpre, hall⟩, hb1, hb2, hP⟩ |
      ⟨s1, pre, acc1, b1, final, resist, critEvs, deathEvs, ta, _, _, _,
        ⟨d, al, consumeEvs, hpre, hall⟩, hb1, hb2, hfin, hcrit, hfa, hde, hP⟩
    · rw [hP] at hm
      simp [eventsOf] at hm
    · rw [hP] at hm
      simp [eventsOf] at hm
    · rw [hP] at hm
      simp [eventsOf] at hm
    · rw [hP] at hm
      simp [eventsOf] at hm
    · rw [hP] at hm
      simp [eventsOf] at hm
    · rw [hP] at hm
      subst hpre
      have hn : CombatEvent.HIT_ROLL acc r ∉ consumeEvs := not_ammo_not_mem hall rfl
      simp [eventsOf, hn] at hm
      obtain ⟨rfl, rfl⟩ := hm
      exact ⟨hb1, hb2⟩
    · rw [hP] at hm
      subst hpre
      subst hde
      have hn : CombatEvent.HIT_ROLL acc r ∉ consumeEvs := not_ammo_not_mem hall rfl
      rcases hcrit with hc | ⟨cm, hc⟩ <;> subst hc <;>
        by_cases hta : ta.hp ≤ 0 <;>
        simp [eventsOf, hn, hta] at hm <;>
        obtain ⟨rfl, rfl⟩ := hm <;>
        exact ⟨hb1, hb2⟩

theorem C5_accuracy_clipped_witness :
    (5 : Int) ≤ 95 ∧ (95 : Int) ≤ 95 :=
  C5_accuracy_clipped.2 cArmor "atk" "tgt" 50 95 50
    (by rw [performAttack_cArmor_eval]; simp [eventsOf])

-- ===================== C6 =====================

/-- C6: a LOS or range/adjacency precondition failure yields a
successful result and zero mutations: the returned state is exactly the
input state. -/
theorem C6_precondition_zero_mutation (s : GameState) (a t : String) (roll : Int)
    (reason : String)
    (h : CombatEvent.LOS_BLOCKED ∈ eventsOf (performAttack s a t roll).2 ∨
         CombatEvent.ATTACK_OUT_OF_RANGE reason ∈ eventsOf (performAttack s a t roll).2) :
    (performAttack s a t roll).1 = s ∧
    ∃ evs, (performAttack s a t roll).2 = .ok evs := by
  rcases performAttack_shape s a t roll with
    ⟨_, hP⟩ | hP | ⟨d, al, hP⟩ | ⟨d, al, reason1, hP⟩ | ⟨d, al, x, hP⟩ |
    ⟨s1, pre, acc, _, _, _, ⟨d, al, consumeEvs, hpre, hall⟩, _, _, hP⟩ |
    ⟨s1, pre, acc, b1, final, resist, critEvs, deathEvs, ta, _, _, _,
      ⟨d, al, consumeEvs, hpre, hall⟩, _, _, hfin, hcrit, hfa, hde, hP⟩
  · rw [hP]
    exact ⟨rfl, _, rfl⟩
  · rw [hP] at h ⊢
    simp [eventsOf] at h
  · rw [hP]
    exact ⟨rfl, _, rfl⟩
  · rw [hP]
    exact ⟨rfl, _, rfl⟩
  · rw [hP]
    exact ⟨rfl, _, rfl⟩
  · rw [hP] at h
    subst hpre
    have h1 : CombatEvent.LOS_BLOCKED ∉ consumeEvs := not_ammo_not_mem hall rfl
    have h2 : CombatEvent.ATTACK_OUT_OF_RANGE reason ∉ consumeEvs :=
      not_ammo_not_mem hall rfl
    simp [eventsOf, h1, h2] at h
  · rw [hP] at h
    subst hpre
    subst hde
    have h1 : CombatEvent.LOS_BLOCKED ∉ consumeEvs := not_ammo_not_mem hall rfl
    have h2 : CombatEvent.ATTACK_OUT_OF_RANGE reason ∉ consumeEvs :=
      not_ammo_not_mem hall rfl
    rcases hcrit with hc | ⟨cm, hc⟩ <;> subst hc <;>
      by_cases hta : ta.hp ≤ 0 <;>
      simp [eventsOf, h1, h2, hta] at h

theorem C6_precondition_zero_mutation_witness :
    (performAttack cBlocked "atk" "tgt" 50).1 = cBlocked ∧
    ∃ evs, (performAttack cBlocked "atk" "tgt" 50).2 = .ok evs :=
  C6_precondition_zero_mutation cBlocked "atk" "tgt" 50 "max_range"
    (Or.inl (by rw [performAttack_cBlocked_eval]; simp [eventsOf]))

-- ===================== C9 =====================

/-- C9: the claim requires the battle participant alive flag to flip on
death; in the cKill scene the attack reduces the target hp to 0 and
emits DEATH, but the participant row keeps alive = true and the
participants table is untouched. -/
theorem C9_alive_flag_not_flipped_counterexample :
    (performAttack cKill "atk" "tgt" 50).2
      = .ok [.ATTACK_START 1 true true, .HIT_ROLL 95 50, .RESIST_APPLY 1,
          .DAMAGE_APPLY 10 10, .ATTACK_HIT, .DEATH "tgt"] ∧
    (performAttack cKill "atk" "tgt" 50).1.participants
      = [{ session_id := "s1", actor_id := "tgt", team := "neutral",
           initiative := 0, alive := true }] := by
  rw [performAttack_cKill_eval]
  exact ⟨rfl, rfl⟩

/-- C9 (amended): attack resolution never touches battle participants
(so no alive flag is flipped), and on a hit the DEATH event is emitted
exactly when the post-damage hp of the target is 0. -/
theorem C9_death_event_amended (s : GameState) (a t : String) (roll : Int) :
    (performAttack s a t roll).1.participants = s.participants ∧
    (∀ ta : Actor, CombatEvent.ATTACK_HIT ∈ eventsOf (performAttack s a t roll).2 →
      findActor (performAttack s a t roll).1 t = some ta →
      (CombatEvent.DEATH t ∈ eventsOf (performAttack s a t roll).2 ↔ ta.hp ≤ 0)) := by
  rcases performAttack_shape s a t roll with
    ⟨_, hP⟩ | hP | ⟨d, al, hP⟩ | ⟨d, al, reason1, hP⟩ | ⟨d, al, x, hP⟩ |
    ⟨s1, pre, acc, hact, hpart, hstat, ⟨d, al, consumeEvs, hpre, hall⟩, _, _, hP⟩ |
    ⟨s1, pre, acc, b1, final, resist, critEvs, deathEvs, ta0, hact, hpart, hstat,
      ⟨d, al, consumeEvs, hpre, hall⟩, _, _, hfin, hcrit, hfa, hde, hP⟩
  · rw [hP]
    exact ⟨rfl, fun ta hm => by simp [eventsOf] at hm⟩
  · rw [hP]
    exact ⟨rfl, fun ta hm => by simp [eventsOf] at hm⟩
  · rw [hP]
    exact ⟨rfl, fun ta hm => by simp [eventsOf] at hm⟩
  · rw [hP]
    exact ⟨rfl, fun ta hm => by simp [eventsOf] at hm⟩
  · rw [hP]
    exact ⟨rfl, fun ta hm => by simp [eventsOf] at hm⟩
  · rw [hP]
    subst hpre
    refine ⟨hpart, fun ta hm => ?_⟩
    have h1 : CombatEvent.ATTACK_HIT ∉ consumeEvs := not_ammo_not_mem hall rfl
    simp [eventsOf, h1] at hm
  · rw [hP]
    subst hpre
    subst hde
    constructor
    · exact hpart
    · intro ta hm hfa2
      have hta0 : ta = ta0 := by
        rw [hfa2] at hfa
        exact Option.some_injective _ hfa
      subst hta0
      have h1 : CombatEvent.ATTACK_HIT ∉ consumeEvs := not_ammo_not_mem hall rfl
      have h2 : CombatEvent.DEATH t ∉ consumeEvs := not_ammo_not_mem hall rfl
      constructor
      · intro hdm
        by_cases hta : ta.hp ≤ 0
        · exact hta
        · rcases hcrit with hc | ⟨cm, hc⟩ <;> subst hc <;>
            simp [eventsOf, h2, hta] at hdm
      · intro hta
        rcases hcrit with hc | ⟨cm, hc⟩ <;> subst hc <;>
          simp [eventsOf, hta]

theorem C9_death_event_amended_witness :
    CombatEvent.DEATH "tgt" ∈ eventsOf (performAttack cKill "atk" "tgt" 50).2 ∧
    (performAttack cKill "atk" "tgt" 50).1.participants = cKill.participants :=
  ⟨((C9_death_event_amended cKill "atk" "tgt" 50).2
      { id := "tgt", node_id := some "n", x := 1, y := 0, hp := 0,
        resistances := [], meta_acc_bonus := 0, meta_evasion := 0 }
      (by rw [performAttack_cKill_eval]; simp [eventsOf])
      (by rw [performAttack_cKill_eval]; rfl)).mpr (by norm_num),
   (C9_death_event_amended cKill "atk" "tgt" 50).1⟩

-- ===================== C2 =====================

/-- C2 (spec-modelled): the reactive counter classifies received damage
into the press band (at most 5, always), the neutral band (6 to 11), and
the heavy band (at least 12) where rage fires below the 0.20 threshold
and stagger otherwise; each modifier lasts 1 turn with the advertised
polarity, and the defender then attacks the attacker through the
Accuracy and Damage Model with the modifier applied. -/
theorem C2_reactive_counter_bands (damage : Int) (p : ℚ) (s : GameState)
    (n t : String) (r : Int) :
    (damage ≤ 5 → classify_reaction damage p = .press) ∧
    (6 ≤ damage → damage ≤ 11 → classify_reaction damage p = .noReaction) ∧
    (12 ≤ damage → p < 1/5 → classify_reaction damage p = .rage) ∧
    (12 ≤ damage → 1/5 ≤ p → classify_reaction damage p = .stagger) ∧
    npc_reactive_counter_db s n t damage p r
      = performAttack (apply_reaction_status s n (classify_reaction damage p)) n t r ∧
    (∃ row, reaction_status_row n .press = some row ∧ row.turns_left = 1 ∧
      0 < row.meta_accuracy_mod.getD 0 ∧ 0 < row.meta_damage_bonus.getD 0) ∧
    (∃ row, reaction_status_row n .rage = some row ∧ row.turns_left = 1 ∧
      0 < row.meta_accuracy_mod.getD 0 ∧ 1 < row.meta_damage_mult.getD 1) ∧
    (∃ row, reaction_status_row n .stagger = some row ∧ row.turns_left = 1 ∧
      row.meta_accuracy_mod.getD 0 < 0) := by
  refine ⟨?_, ?_, ?_, ?_, rfl,
    ⟨_, rfl, rfl, by norm_num, by norm_num⟩,
    ⟨_, rfl, rfl, by norm_num, by norm_num⟩,
    ⟨_, rfl, rfl, by norm_num⟩⟩
  · intro h
    unfold classify_reaction
    rw [if_pos h]
  · intro h6 h11
    unfold classify_reaction
    rw [if_neg (by omega), if_pos h11]
  · intro h12 hp
    unfold classify_reaction
    rw [if_neg (by omega), if_neg (by omega), if_pos hp]
  · intro h12 hp
    unfold classify_reaction
    rw [if_neg (by omega), if_neg (by omega), if_neg (not_lt.mpr hp)]

theorem C2_reactive_counter_bands_witness :
    classify_reaction 3 (1/2) = .press ∧
    classify_reaction 8 (1/2) = .noReaction ∧
    classify_reaction 13 (1/10) = .rage ∧
    classify_reaction 13 (1/2) = .stagger :=
  ⟨(C2_reactive_counter_bands 3 (1/2) cArmor "n" "t" 1).1 (by norm_num),
   (C2_reactive_counter_bands 8 (1/2) cArmor "n" "t" 1).2.1
     (by norm_num) (by norm_num),
   (C2_reactive_counter_bands 13 (1/10) cArmor "n" "t" 1).2.2.1
     (by norm_num) (by norm_num),
   (C2_reactive_counter_bands 13 (1/2) cArmor "n" "t" 1).2.2.2.1
     (by norm_num) (by norm_num)⟩

-- ===================== C10 =====================

/-- C10: applying a burn with turns_left = 0 reports success, the row is
invisible to the status listing, yet the next global tick still applies
round(intensity x 2) damage exactly once before deleting the row; after
the tick no status rows remain. -/
theorem C10_zero_turn_status_ticks_once
    (s : GameState) (aid : String) (a : Actor) (i : ℚ) (d : Int)
    (ha : findActor s aid = some a) (hs : s.statuses = [])
    (hi : i ≠ 0) (hd : pythonRound (i * 2) = d) (hdpos : 0 < d) :
    (apply_status_db s aid "burn" 0 i 1 none).2 = .applied "burn" 0 ∧
    get_statuses_db (apply_status_db s aid "burn" 0 i 1 none).1 aid = [] ∧
    (advance_statuses_db (apply_status_db s aid "burn" 0 i 1 none).1).2
      = [.STATUS_TICK aid "burn" (some d), .STATUS_EXPIRE aid "burn"] ∧
    findActor (advance_statuses_db (apply_status_db s aid "burn" 0 i 1 none).1).1 aid
      = some { a with hp := max 0 (a.hp - d) } ∧
    (advance_statuses_db (apply_status_db s aid "burn" 0 i 1 none).1).1.statuses = [] := by
  have hA : apply_status_db s aid "burn" 0 i 1 none
      = ({ s with statuses :=
          [{ actor_id := aid, status_id := "burn", turns_left := 0,
             stack_count := some 1, intensity := some i, source_id := none,
             meta_accuracy_mod := none, meta_damage_bonus := none,
             meta_damage_mult := none, meta_armor_bonus := none }] },
         .applied "burn" 0) := by
    unfold apply_status_db
    rw [ha, hs]
    simp
  rw [hA]
  refine ⟨rfl, ?_, ?_⟩
  · unfold get_statuses_db
    simp
  · have hT : tickOneStatus
        ({ s with statuses :=
            [{ actor_id := aid, status_id := "burn", turns_left := (0:Int),
               stack_count := some 1, intensity := some i, source_id := none,
               meta_accuracy_mod := none, meta_damage_bonus := none,
               meta_damage_mult := none, meta_armor_bonus := none }] })
        { actor_id := aid, status_id := "burn", turns_left := (0:Int),
          stack_count := some 1, intensity := some i, source_id := none,
          meta_accuracy_mod := none, meta_damage_bonus := none,
          meta_damage_mult := none, meta_armor_bonus := none }
      = ({ updateActorHp
            ({ s with statuses :=
                [{ actor_id := aid, status_id := "burn", turns_left := (0:Int),
                   stack_count := some 1, intensity := some i, source_id := none,
                   meta_accuracy_mod := none, meta_damage_bonus := none,
                   meta_damage_mult := none, meta_armor_bonus := none }] })
            aid (fun hp => max 0 (hp - d)) with statuses := [] },
         [CombatEvent.STATUS_TICK aid "burn" (some d),
          CombatEvent.STATUS_EXPIRE aid "burn"]) := by
      unfold tickOneStatus
      have h1 : statusEffect "burn" i 1 = .damage d := by
        unfold statusEffect
        rw [if_pos (by rfl)]
        rw [hd, max_eq_right hdpos.le]
      simp only [bne_iff_ne, ne_eq, hi, not_false_eq_true, if_true, ite_self, h1]
      simp only [gt_iff_lt, hdpos, if_true]
      simp [updateActorHp, beq_self_eq_true]
    unfold advance_statuses_db
    simp only [List.foldl_cons, List.foldl_nil, hT]
    refine ⟨by simp, ?_, by simp⟩
    have h2 := find_updateActorHp
        ({ s with statuses :=
            [{ actor_id := aid, status_id := "burn", turns_left := (0:Int),
               stack_count := some 1, intensity := some i, source_id := none,
               meta_accuracy_mod := none, meta_damage_bonus := none,
               meta_damage_mult := none, meta_armor_bonus := none }] })
        aid (fun hp => max 0 (hp - d))
    rw [show findActor
        ({ s with statuses :=
            [{ actor_id := aid, status_id := "burn", turns_left := (0:Int),
               stack_count := some 1, intensity := some i, source_id := none,
               meta_accuracy_mod := none, meta_damage_bonus := none,
               meta_damage_mult := none, meta_armor_bonus := none }] })
        aid = some a from ha] at h2
    simp only [Option.map_some'] at h2
    exact (findActor_congr rfl aid).trans h2

theorem C10_zero_turn_status_ticks_once_witness :
    (apply_status_db cArmor "tgt" "burn" 0 2 1 none).2 = .applied "burn" 0 ∧
    get_statuses_db (apply_status_db cArmor "tgt" "burn" 0 2 1 none).1 "tgt" = [] ∧
    (advance_statuses_db (apply_status_db cArmor "tgt" "burn" 0 2 1 none).1).2
      = [.STATUS_TICK "tgt" "burn" (some 4), .STATUS_EXPIRE "tgt" "burn"] ∧
    findActor
        (advance_statuses_db (apply_status_db cArmor "tgt" "burn" 0 2 1 none).1).1 "tgt"
      = some { id := "tgt", node_id := some "n", x := 1, y := 0, hp := 16,
               resistances := [], meta_acc_bonus := 0, meta_evasion := 0 } ∧
    (advance_statuses_db (apply_status_db cArmor "tgt" "burn" 0 2 1 none).1).1.statuses
      = [] :=
  C10_zero_turn_status_ticks_once cArmor "tgt"
    { id := "tgt", node_id := some "n", x := 1, y := 0, hp := 20,
      resistances := [], meta_acc_bonus := 0, meta_evasion := 0 }
    2 4 rfl rfl (by norm_num) (by norm_num [pythonRound]) (by norm_num)
